import Mathlib

/-!
Formal model of the `Pixel` grid contract of the thermal-death repository.

The contract source is absent from the repository snapshot; the model below is
built from the specification, with every point of behaviour that the
repository's own test suite (src/test/pixel-test.js) pins down taken from the
tests, which are authoritative where they and the spec disagree:

* under-payment of `buyPixel` fails with PRICE_NOT_MATCHING, while
  over-payment succeeds and the excess is credited to the buyer's stored
  withdrawal balance (tests "should allow to withdraw stored ethers" and
  "... and gain if we are the contract owner");
* the signature-empty and colour-format checks fire before the price check
  (tests at lines 111-115 and 125-131 pass a wrong payment together with an
  empty signature / bad colour and expect SIGNATURE_IS_EMPTY /
  INVALID_COLOR_FORMAT);
* primary-sale proceeds are attributed to the administrator role, not to the
  account holding the role at sale time: a `gained` pot is paid to whoever is
  administrator when `withdraw` is called (test "should allow to withdraw if
  we change owner and withdraw with new owner").

Accounts and times are naturals; a bytes32 signature is a `String` whose
empty value models the zero word; colours and packed pixel descriptors are
naturals.
-/

/-- The named rejection reasons of the contract (revert strings in the
source tests). -/
inductive PixelError where
  | coordsOutOfBounds
  | pixelAlreadyTaken
  | priceNotMatching
  | signatureIsEmpty
  | invalidColorFormat
  | invalidPixelData
  | invalidSignatureData
  | arraySizeMismatch
  | fromValueTooLow
  | toValueTooHigh
  | noEthToWithdraw
  | artIsComplete
  | forbidden
  | unknownToken
deriving DecidableEq, Repr

/-- The per-token pixel record: grid position, 24-bit colour, signature. -/
structure PixelData where
  px : Nat
  py : Nat
  color : Nat
  signature : String
deriving DecidableEq, Repr

/-- Modelled from the spec: the full storage of the deployed `Pixel`
contract (the contract body is not under src/).  `width`, `height`,
`pricePerPixel` and `deadline` are fixed at construction; `admin` is the
contract owner; `tokenCounter` is the monotonic mint counter; `cellToToken`
is the auxiliary cell-to-token index; `tokenOwner` is the ERC721 owner
mapping; `pixelOf` is the token-indexed pixel store; `stored` holds
per-account withdrawal balances (over-payment refunds) and `gained` the
primary-sale proceeds pot owed to the current administrator. -/
structure PixelState where
  width : Nat
  height : Nat
  pricePerPixel : Nat
  deadline : Nat
  admin : Nat
  tokenCounter : Nat
  cellToToken : Nat → Option Nat
  tokenOwner : Nat → Option Nat
  pixelOf : Nat → PixelData
  stored : Nat → Nat
  gained : Nat

/-- The freshly constructed contract: `deadline` is construction time (taken
as 0) plus the configured duration. -/
def initState (w h price duration adminAcct : Nat) : PixelState :=
  { width := w
    height := h
    pricePerPixel := price
    deadline := duration
    admin := adminAcct
    tokenCounter := 0
    cellToToken := fun _ => none
    tokenOwner := fun _ => none
    pixelOf := fun _ => { px := 0, py := 0, color := 0, signature := "" }
    stored := fun _ => 0
    gained := 0 }

/-- Canonical row-major cell identifier of coordinate (x, y). -/
def cellId (w x y : Nat) : Nat := y * w + x

/-- A colour is valid when no bit at or above bit 24 is set. -/
def validColor (c : Nat) : Prop := c < 16777216

instance (c : Nat) : Decidable (validColor c) := by
  unfold validColor; infer_instance

/-- The state produced by a successful single purchase: mint the next token
for the cell, record the pixel, credit the price to the administrator pot
and any excess payment to the buyer's stored balance. -/
def buyPixelOk (s : PixelState) (sender x y color : Nat) (sig : String)
    (value : Nat) : PixelState :=
  let tok := s.tokenCounter + 1
  { s with
    tokenCounter := tok
    cellToToken := fun c => if c = cellId s.width x y then some tok else s.cellToToken c
    tokenOwner := fun t => if t = tok then some sender else s.tokenOwner t
    pixelOf := fun t => if t = tok then { px := x, py := y, color := color, signature := sig }
      else s.pixelOf t
    stored := fun a => if a = sender then s.stored a + (value - s.pricePerPixel) else s.stored a
    gained := s.gained + s.pricePerPixel }

/-- Modelled from the spec: `buyPixel` (the contract body is not under
src/).  Checks, in the order fixed by the spec and the tests: coordinates in
bounds, cell not already minted, 24-bit colour, non-empty signature, payment
at least the configured price; then commits the purchase. -/
def buyPixel (s : PixelState) (sender x y color : Nat) (sig : String)
    (value : Nat) : Except PixelError PixelState :=
  if ¬ (x < s.width ∧ y < s.height) then .error .coordsOutOfBounds
  else if s.cellToToken (cellId s.width x y) ≠ none then .error .pixelAlreadyTaken
  else if ¬ validColor color then .error .invalidColorFormat
  else if sig = "" then .error .signatureIsEmpty
  else if value < s.pricePerPixel then .error .priceNotMatching
  else .ok (buyPixelOk s sender x y color sig value)

/-- x-coordinate of a packed pixel descriptor (low 32 bits). -/
def decodeX (p : Nat) : Nat := p % 4294967296

/-- y-coordinate of a packed pixel descriptor (next 32 bits). -/
def decodeY (p : Nat) : Nat := p / 4294967296 % 4294967296

/-- colour of a packed pixel descriptor (bits 64 and up). -/
def decodeColor (p : Nat) : Nat := p / 18446744073709551616

/-- Pack (x, y, colour) into the descriptor format used by the test
harness's `encodePixel`. -/
def encodePixel (x y color : Nat) : Nat :=
  color * 18446744073709551616 + y * 4294967296 + x

/-- The cell a packed descriptor addresses on a grid of width w. -/
def itemCell (w p : Nat) : Nat := cellId w (decodeX p) (decodeY p)

/-- Modelled from the spec: one item of a batch purchase — the single
purchase protocol minus the per-item price check (the aggregate payment is
checked once up front). -/
def buyPixelItem (s : PixelState) (sender p : Nat) (sig : String) :
    Except PixelError PixelState :=
  if ¬ (decodeX p < s.width ∧ decodeY p < s.height) then .error .coordsOutOfBounds
  else if s.cellToToken (itemCell s.width p) ≠ none then .error .pixelAlreadyTaken
  else if ¬ validColor (decodeColor p) then .error .invalidColorFormat
  else if sig = "" then .error .signatureIsEmpty
  else .ok (buyPixelOk s sender (decodeX p) (decodeY p) (decodeColor p) sig s.pricePerPixel)

/-- Sequential application of the batch items; the first failure aborts the
whole run. -/
def buyPixelsLoop (sender : Nat) : PixelState → List (Nat × String) →
    Except PixelError PixelState
  | s, [] => .ok s
  | s, item :: rest =>
    match buyPixelItem s sender item.1 item.2 with
    | .error e => .error e
    | .ok s1 => buyPixelsLoop sender s1 rest

/-- Modelled from the spec: `buyPixelsBatch` (the contract body is not under
src/).  Rejects an empty pixel array, an empty signature array, mismatched
lengths, and an aggregate payment different from price times count; then
runs the single-purchase protocol per item, in order. -/
def buyPixelsBatch (s : PixelState) (sender : Nat) (pixels : List Nat)
    (sigs : List String) (value : Nat) : Except PixelError PixelState :=
  if pixels = [] then .error .invalidPixelData
  else if sigs = [] then .error .invalidSignatureData
  else if pixels.length ≠ sigs.length then .error .arraySizeMismatch
  else if value ≠ s.pricePerPixel * pixels.length then .error .priceNotMatching
  else buyPixelsLoop sender s (pixels.zip sigs)

/-- Overwrite the mutable attributes of a pixel record. -/
def setPixelData (d : PixelData) (color : Nat) (sig : String) : PixelData :=
  { d with color := color, signature := sig }

/-- Modelled from the spec: `updatePixel` (the contract body is not under
src/).  Once the completion deadline has been reached the call fails with
ART_IS_COMPLETE regardless of the caller; before it, the token must exist,
the caller must be its owner, and the new colour and signature must be
valid. -/
def updatePixel (s : PixelState) (sender now tok color : Nat) (sig : String) :
    Except PixelError PixelState :=
  if s.deadline ≤ now then .error .artIsComplete
  else match s.tokenOwner tok with
    | none => .error .unknownToken
    | some owner =>
      if sender ≠ owner then .error .forbidden
      else if ¬ validColor color then .error .invalidColorFormat
      else if sig = "" then .error .signatureIsEmpty
      else .ok { s with
        pixelOf := fun t => if t = tok then setPixelData (s.pixelOf tok) color sig else s.pixelOf t }

/-- Modelled from the spec: `getPixels` — range retrieval of pixel records
for tokens `a` through `b` inclusive. -/
def getPixels (s : PixelState) (a b : Nat) : Except PixelError (List PixelData) :=
  if a < 1 then .error .fromValueTooLow
  else if s.tokenCounter < b then .error .toValueTooHigh
  else .ok ((List.range (b + 1 - a)).map (fun i => s.pixelOf (a + i)))

/-- The amount the contract owes account `a`: its stored balance, plus the
primary-sale pot when `a` currently holds the administrator role. -/
def withdrawalBalance (s : PixelState) (a : Nat) : Nat :=
  s.stored a + (if a = s.admin then s.gained else 0)

/-- The storage after a successful withdraw by `caller`: the caller's stored
balance is zeroed, and the proceeds pot too when the caller holds the
administrator role (checks-effects ordering: this commit happens before the
funds release). -/
def withdrawOkState (s : PixelState) (caller : Nat) : PixelState :=
  { s with
    stored := fun a => if a = caller then 0 else s.stored a,
    gained := if caller = s.admin then 0 else s.gained }

/-- Modelled from the spec: `withdraw` (the contract body is not under
src/).  Fails NO_ETH_TO_WITHDRAW when the caller is owed nothing; otherwise
zeroes the caller's balances and releases exactly the owed amount to the
destination (returned as the first component). -/
def withdraw (s : PixelState) (caller dest : Nat) :
    Except PixelError (Nat × PixelState) :=
  let amount := withdrawalBalance s caller
  if amount = 0 then .error .noEthToWithdraw
  else .ok (amount, withdrawOkState s caller)

/-- Modelled from the spec: `transferOwnership` — administrator-only handover
of the administrator role. -/
def transferOwnership (s : PixelState) (caller newAdmin : Nat) :
    Except PixelError PixelState :=
  if caller ≠ s.admin then .error .forbidden
  else .ok { s with admin := newAdmin }

/-- Modelled from the spec: ERC721 `transferFrom` restricted to the owner
(approval bookkeeping omitted: no claim depends on delegates). -/
def transferFrom (s : PixelState) (caller src dst tok : Nat) :
    Except PixelError PixelState :=
  match s.tokenOwner tok with
  | none => .error .unknownToken
  | some owner =>
    if caller ≠ owner then .error .forbidden
    else if src ≠ owner then .error .forbidden
    else .ok { s with tokenOwner := fun t => if t = tok then some dst else s.tokenOwner t }

/-- The state-changing entry points of the contract, as one request type. -/
inductive Op where
  | buy (sender x y color : Nat) (sig : String) (value : Nat)
  | buyBatch (sender : Nat) (pixels : List Nat) (sigs : List String) (value : Nat)
  | update (sender now tok color : Nat) (sig : String)
  | withdrawal (caller dest : Nat)
  | adminTransfer (caller newAdmin : Nat)
  | tokenTransfer (caller src dst tok : Nat)

/-- Run one request against the state, propagating its rejection if any. -/
def runOp (s : PixelState) : Op → Except PixelError PixelState
  | .buy sender x y color sig value => buyPixel s sender x y color sig value
  | .buyBatch sender pixels sigs value => buyPixelsBatch s sender pixels sigs value
  | .update sender now tok color sig => updatePixel s sender now tok color sig
  | .withdrawal caller dest =>
    match withdraw s caller dest with
    | .error e => .error e
    | .ok r => .ok r.2
  | .adminTransfer caller newAdmin => transferOwnership s caller newAdmin
  | .tokenTransfer caller src dst tok => transferFrom s caller src dst tok

/-- Transactional semantics of the hosting chain: a rejected call leaves the
state exactly as it was. -/
def applyOp (s : PixelState) (op : Op) : PixelState :=
  match runOp s op with
  | .ok s1 => s1
  | .error _ => s

/-! ### Basic facts about the success state of a purchase -/

theorem buyPixelOk_width (s : PixelState) (sender x y color : Nat) (sig : String) (value : Nat) :
    (buyPixelOk s sender x y color sig value).width = s.width := rfl

theorem buyPixelOk_deadline (s : PixelState) (sender x y color : Nat) (sig : String) (value : Nat) :
    (buyPixelOk s sender x y color sig value).deadline = s.deadline := rfl

theorem buyPixelOk_cellToToken_mono {s : PixelState} {sender x y color value c tok : Nat}
    {sig : String} (hnone : s.cellToToken (cellId s.width x y) = none)
    (hc : s.cellToToken c = some tok) :
    (buyPixelOk s sender x y color sig value).cellToToken c = some tok := by
  simp only [buyPixelOk]
  by_cases hcc : c = cellId s.width x y
  · rw [hcc, hnone] at hc; exact Option.noConfusion hc
  · simp [hcc, hc]

theorem buyPixelOk_cell_isSome {s : PixelState} {sender x y color value c : Nat} {sig : String}
    (h : (s.cellToToken c).isSome) :
    ((buyPixelOk s sender x y color sig value).cellToToken c).isSome := by
  simp only [buyPixelOk]
  by_cases hcc : c = cellId s.width x y <;> simp [hcc, h]

theorem buyPixelOk_cell_self (s : PixelState) (sender x y color : Nat) (sig : String)
    (value : Nat) :
    ((buyPixelOk s sender x y color sig value).cellToToken (cellId s.width x y)).isSome := by
  simp [buyPixelOk]

/-! ### Inversion and success lemmas for the single-purchase protocol -/

theorem buyPixel_ok_of_valid (s : PixelState) (sender x y color : Nat) (sig : String)
    (value : Nat) (hx : x < s.width) (hy : y < s.height)
    (hcell : s.cellToToken (cellId s.width x y) = none)
    (hc : validColor color) (hs : sig ≠ "") (hv : s.pricePerPixel ≤ value) :
    buyPixel s sender x y color sig value = .ok (buyPixelOk s sender x y color sig value) := by
  unfold buyPixel
  rw [if_neg (not_not_intro ⟨hx, hy⟩), if_neg (by simp [hcell]), if_neg (not_not_intro hc),
    if_neg hs, if_neg (not_lt.mpr hv)]

theorem buyPixel_error_taken (s : PixelState) (sender x y color : Nat) (sig : String)
    (value : Nat) (hx : x < s.width) (hy : y < s.height)
    (hcell : s.cellToToken (cellId s.width x y) ≠ none) :
    buyPixel s sender x y color sig value = .error .pixelAlreadyTaken := by
  unfold buyPixel
  rw [if_neg (not_not_intro ⟨hx, hy⟩), if_pos hcell]

theorem buyPixel_error_price (s : PixelState) (sender x y color : Nat) (sig : String)
    (value : Nat) (hx : x < s.width) (hy : y < s.height)
    (hcell : s.cellToToken (cellId s.width x y) = none)
    (hc : validColor color) (hs : sig ≠ "") (hv : value < s.pricePerPixel) :
    buyPixel s sender x y color sig value = .error .priceNotMatching := by
  unfold buyPixel
  rw [if_neg (not_not_intro ⟨hx, hy⟩), if_neg (by simp [hcell]), if_neg (not_not_intro hc),
    if_neg hs, if_pos hv]

theorem buyPixel_ok_inv {s s1 : PixelState} {sender x y color value : Nat} {sig : String}
    (h : buyPixel s sender x y color sig value = .ok s1) :
    s1 = buyPixelOk s sender x y color sig value ∧
    s.cellToToken (cellId s.width x y) = none := by
  unfold buyPixel at h
  split_ifs at h with h1 h2 h3 h4 h5
  all_goals first
  | exact Except.noConfusion h
  | exact ⟨(Except.ok.inj h).symm, not_not.mp h2⟩

/-! ### Inversion lemmas for the other operations -/

theorem buyPixelItem_ok_inv {s s1 : PixelState} {sender p : Nat} {sig : String}
    (h : buyPixelItem s sender p sig = .ok s1) :
    s1 = buyPixelOk s sender (decodeX p) (decodeY p) (decodeColor p) sig s.pricePerPixel ∧
    s.cellToToken (cellId s.width (decodeX p) (decodeY p)) = none := by
  unfold buyPixelItem at h
  split_ifs at h with h1 h2 h3 h4
  all_goals first
  | exact Except.noConfusion h
  | exact ⟨(Except.ok.inj h).symm, not_not.mp h2⟩

theorem buyPixelItem_wf_cases {s : PixelState} (sender : Nat) {p : Nat} {sig : String}
    (hx : decodeX p < s.width) (hy : decodeY p < s.height)
    (hc : validColor (decodeColor p)) (hs : sig ≠ "") :
    (s.cellToToken (itemCell s.width p) = none ∧
      buyPixelItem s sender p sig =
        .ok (buyPixelOk s sender (decodeX p) (decodeY p) (decodeColor p) sig s.pricePerPixel)) ∨
    ((s.cellToToken (itemCell s.width p)).isSome ∧
      buyPixelItem s sender p sig = .error .pixelAlreadyTaken) := by
  by_cases hm : s.cellToToken (itemCell s.width p) = none
  · refine Or.inl ⟨hm, ?_⟩
    unfold buyPixelItem
    rw [if_neg (not_not_intro ⟨hx, hy⟩), if_neg (by simp [hm]), if_neg (not_not_intro hc),
      if_neg hs]
  · refine Or.inr ⟨Option.ne_none_iff_isSome.mp hm, ?_⟩
    unfold buyPixelItem
    rw [if_neg (not_not_intro ⟨hx, hy⟩), if_pos hm]

theorem updatePixel_ok_inv {s s1 : PixelState} {sender now tok color : Nat} {sig : String}
    (h : updatePixel s sender now tok color sig = .ok s1) :
    s1 = { s with pixelOf := fun t =>
      if t = tok then setPixelData (s.pixelOf tok) color sig else s.pixelOf t } := by
  unfold updatePixel at h
  split at h
  · exact Except.noConfusion h
  · split at h
    · exact Except.noConfusion h
    · split_ifs at h with h1 h2 h3
      all_goals first
      | exact Except.noConfusion h
      | exact (Except.ok.inj h).symm

theorem withdraw_ok_inv {s : PixelState} {caller dest : Nat} {r : Nat × PixelState}
    (h : withdraw s caller dest = .ok r) :
    r = (withdrawalBalance s caller, withdrawOkState s caller) := by
  simp only [withdraw] at h
  split_ifs at h with h1
  all_goals first
  | exact Except.noConfusion h
  | exact (Except.ok.inj h).symm

theorem transferOwnership_ok_inv {s s1 : PixelState} {caller newAdmin : Nat}
    (h : transferOwnership s caller newAdmin = .ok s1) :
    s1 = { s with admin := newAdmin } := by
  unfold transferOwnership at h
  split_ifs at h with h1
  all_goals first
  | exact Except.noConfusion h
  | exact (Except.ok.inj h).symm

theorem transferFrom_ok_inv {s s1 : PixelState} {caller src dst tok : Nat}
    (h : transferFrom s caller src dst tok = .ok s1) :
    s1 = { s with tokenOwner := fun t => if t = tok then some dst else s.tokenOwner t } := by
  unfold transferFrom at h
  split at h
  · exact Except.noConfusion h
  · split_ifs at h with h1 h2
    all_goals first
    | exact Except.noConfusion h
    | exact (Except.ok.inj h).symm

/-! ### Frame facts: what a successful run can and cannot change -/

theorem buyPixelsLoop_frame (sender : Nat) :
    ∀ (items : List (Nat × String)) (s s1 : PixelState),
      buyPixelsLoop sender s items = .ok s1 →
      s1.deadline = s.deadline ∧ s1.width = s.width ∧ s1.pricePerPixel = s.pricePerPixel ∧
      (∀ c tok, s.cellToToken c = some tok → s1.cellToToken c = some tok) := by
  intro items
  induction items with
  | nil =>
    intro s s1 h
    unfold buyPixelsLoop at h
    rw [(Except.ok.inj h)]
    exact ⟨rfl, rfl, rfl, fun _ _ hh => hh⟩
  | cons head rest ih =>
    intro s s1 h
    unfold buyPixelsLoop at h
    cases hi : buyPixelItem s sender head.1 head.2 with
    | error e => rw [hi] at h; exact Except.noConfusion h
    | ok smid =>
      rw [hi] at h
      obtain ⟨hmid, hcell⟩ := buyPixelItem_ok_inv hi
      obtain ⟨hd, hw, hp, hmono⟩ := ih smid s1 h
      subst hmid
      refine ⟨hd, hw, hp, ?_⟩
      intro c tok hc
      exact hmono c tok (buyPixelOk_cellToToken_mono hcell hc)

theorem runOp_frame {s s1 : PixelState} {op : Op} (h : runOp s op = .ok s1) :
    s1.deadline = s.deadline ∧
    (∀ c tok, s.cellToToken c = some tok → s1.cellToToken c = some tok) := by
  cases op with
  | buy sender x y color sig value =>
    simp only [runOp] at h
    obtain ⟨h1, h2⟩ := buyPixel_ok_inv h
    subst h1
    exact ⟨rfl, fun c tok hc => buyPixelOk_cellToToken_mono h2 hc⟩
  | buyBatch sender pixels sigs value =>
    simp only [runOp, buyPixelsBatch] at h
    split_ifs at h
    all_goals first
    | exact Except.noConfusion h
    | exact ⟨(buyPixelsLoop_frame sender (pixels.zip sigs) s s1 h).1,
        (buyPixelsLoop_frame sender (pixels.zip sigs) s s1 h).2.2.2⟩
  | update sender now tok color sig =>
    simp only [runOp] at h
    rw [updatePixel_ok_inv h]
    exact ⟨rfl, fun _ _ hc => hc⟩
  | withdrawal caller dest =>
    simp only [runOp] at h
    cases hw : withdraw s caller dest with
    | error e => rw [hw] at h; exact Except.noConfusion h
    | ok r =>
      rw [hw] at h
      rw [← Except.ok.inj h, withdraw_ok_inv hw]
      exact ⟨rfl, fun _ _ hc => hc⟩
  | adminTransfer caller newAdmin =>
    simp only [runOp] at h
    rw [transferOwnership_ok_inv h]
    exact ⟨rfl, fun _ _ hc => hc⟩
  | tokenTransfer caller src dst tok =>
    simp only [runOp] at h
    rw [transferFrom_ok_inv h]
    exact ⟨rfl, fun _ _ hc => hc⟩

theorem applyOp_deadline (s : PixelState) (op : Op) :
    (applyOp s op).deadline = s.deadline := by
  unfold applyOp
  cases h : runOp s op with
  | ok s1 => exact (runOp_frame h).1
  | error e => rfl

theorem applyOp_cellToToken_mono (s : PixelState) (op : Op) (c tok : Nat)
    (hc : s.cellToToken c = some tok) : (applyOp s op).cellToToken c = some tok := by
  unfold applyOp
  cases h : runOp s op with
  | ok s1 => exact (runOp_frame h).2 c tok hc
  | error e => exact hc

/-! ### A batch containing a doomed item aborts with PIXEL_ALREADY_TAKEN -/

/-- An individually well-formed batch item: in-bounds coordinates, 24-bit
colour, non-empty signature. -/
def wfItem (w h : Nat) (item : Nat × String) : Prop :=
  decodeX item.1 < w ∧ decodeY item.1 < h ∧ validColor (decodeColor item.1) ∧ item.2 ≠ ""

instance (w h : Nat) (item : Nat × String) : Decidable (wfItem w h item) := by
  unfold wfItem; infer_instance

/-- Somewhere in the item list there is an item whose cell is already minted
in the current state, or which repeats the cell of an earlier item. -/
def doomedBatch (s : PixelState) (items : List (Nat × String)) : Prop :=
  ∃ j pj sj, items.get? j = some (pj, sj) ∧
    ((s.cellToToken (itemCell s.width pj)).isSome ∨
     ∃ i pi si, i < j ∧ items.get? i = some (pi, si) ∧
       itemCell s.width pi = itemCell s.width pj)

theorem buyPixelsLoop_doomed (sender : Nat) :
    ∀ (items : List (Nat × String)) (s : PixelState),
      (∀ it ∈ items, wfItem s.width s.height it) →
      doomedBatch s items →
      buyPixelsLoop sender s items = .error .pixelAlreadyTaken := by
  intro items
  induction items with
  | nil =>
    intro s _ hdoom
    obtain ⟨j, pj, sj, hget, _⟩ := hdoom
    rw [List.get?_nil] at hget
    exact Option.noConfusion hget
  | cons head rest ih =>
    intro s hwf hdoom
    obtain ⟨hhx, hhy, hhc, hhs⟩ := hwf head (List.mem_cons_self head rest)
    rcases buyPixelItem_wf_cases sender hhx hhy hhc hhs with
      ⟨hnone, hstep⟩ | ⟨_, hstep⟩
    · -- the head item succeeds; push the doom into the tail
      simp only [buyPixelsLoop, hstep]
      apply ih
      · intro it hit
        exact hwf it (List.mem_cons_of_mem head hit)
      · obtain ⟨j, pj, sj, hget, hcase⟩ := hdoom
        cases j with
        | zero =>
          rw [List.get?_cons_zero] at hget
          injection hget with hh
          have hp : head.1 = pj := by rw [hh]
          rcases hcase with hminted | ⟨i, pi, si, hi, _, _⟩
          · rw [← hp] at hminted
            rw [hnone] at hminted
            simp at hminted
          · exact absurd hi (Nat.not_lt_zero i)
        | succ k =>
          rw [List.get?_cons_succ] at hget
          rcases hcase with hminted | ⟨i, pi, si, hi, hgeti, heq⟩
          · refine ⟨k, pj, sj, hget, Or.inl ?_⟩
            rw [buyPixelOk_width]
            exact buyPixelOk_cell_isSome hminted
          · cases i with
            | zero =>
              rw [List.get?_cons_zero] at hgeti
              injection hgeti with hh
              have hp : head.1 = pi := by rw [hh]
              refine ⟨k, pj, sj, hget, Or.inl ?_⟩
              rw [buyPixelOk_width, ← heq, ← hp]
              exact buyPixelOk_cell_self s sender (decodeX head.1) (decodeY head.1)
                (decodeColor head.1) head.2 s.pricePerPixel
            | succ m =>
              rw [List.get?_cons_succ] at hgeti
              exact ⟨k, pj, sj, hget,
                Or.inr ⟨m, pi, si, Nat.lt_of_succ_lt_succ hi, hgeti, heq⟩⟩
    · -- the head item's cell is already minted: it aborts immediately
      simp only [buyPixelsLoop, hstep]

/-! ### Claims -/

/-- C1 (amended): for every buyPixel call on an in-bounds unminted cell with
valid colour and non-empty signature whose attached payment is strictly LESS
than the configured pricePerPixel, the call fails with PriceMismatch and no
state changes.  (The original claim also covered payments strictly greater
than the price; that half is refuted by C1_overpayment_accepted.) -/
theorem C1_underpayment_fails_price_mismatch (s : PixelState)
    (sender x y color value : Nat) (sig : String)
    (hx : x < s.width) (hy : y < s.height)
    (hcell : s.cellToToken (cellId s.width x y) = none)
    (hc : validColor color) (hs : sig ≠ "") (hv : value < s.pricePerPixel) :
    buyPixel s sender x y color sig value = .error .priceNotMatching ∧
    applyOp s (Op.buy sender x y color sig value) = s := by
  have he := buyPixel_error_price s sender x y color sig value hx hy hcell hc hs hv
  refine ⟨he, ?_⟩
  simp only [applyOp, runOp, he]

/-- C1 witness: under-paying (1 wei against price 100) for a fresh in-bounds
cell is rejected with PriceMismatch and leaves the fresh state unchanged. -/
theorem C1_underpayment_fails_price_mismatch_witness :
    buyPixel (initState 10 10 100 1 0) 1 5 5 16711935 "Test" 1 =
      .error .priceNotMatching ∧
    applyOp (initState 10 10 100 1 0) (Op.buy 1 5 5 16711935 "Test" 1) =
      initState 10 10 100 1 0 :=
  C1_underpayment_fails_price_mismatch (initState 10 10 100 1 0) 1 5 5 16711935 1 "Test"
    (by decide) (by decide) (by decide) (by decide) (by decide) (by decide)

/-- C1 counterexample: a payment of 200 strictly above the configured price
100 does NOT fail with PriceMismatch — the purchase succeeds, refuting the
claim's over-payment half. -/
theorem C1_overpayment_accepted :
    (initState 10 10 100 1 0).pricePerPixel < 200 ∧
    (buyPixel (initState 10 10 100 1 0) 1 3 3 16711935 "Test" 200).isOk = true := by
  exact ⟨by decide, rfl⟩

/-- C4: every in-bounds cell is purchasable at most once: the first
well-formed purchase succeeds and mints token tokenCounter+1 for the cell;
any later purchase of the same cell, by any account and in any state where
the cell is taken, fails with AlreadyMinted; and no operation of the
contract ever changes an existing cell-to-token assignment. -/
theorem C4_cell_purchased_at_most_once (s : PixelState) (x y : Nat) :
    (∀ sender color sig value, x < s.width → y < s.height →
      s.cellToToken (cellId s.width x y) = none → validColor color → sig ≠ "" →
      s.pricePerPixel ≤ value →
      buyPixel s sender x y color sig value = .ok (buyPixelOk s sender x y color sig value) ∧
      (buyPixelOk s sender x y color sig value).tokenCounter = s.tokenCounter + 1 ∧
      (buyPixelOk s sender x y color sig value).cellToToken (cellId s.width x y) =
        some (s.tokenCounter + 1) ∧
      (buyPixelOk s sender x y color sig value).tokenOwner (s.tokenCounter + 1) =
        some sender) ∧
    (∀ (s2 : PixelState) sender color sig value, x < s2.width → y < s2.height →
      s2.cellToToken (cellId s2.width x y) ≠ none →
      buyPixel s2 sender x y color sig value = .error .pixelAlreadyTaken) ∧
    (∀ (s2 : PixelState) (op : Op) (c tok : Nat), s2.cellToToken c = some tok →
      (applyOp s2 op).cellToToken c = some tok) := by
  refine ⟨?_, ?_, ?_⟩
  · intro sender color sig value hx hy hcell hc hsg hv
    refine ⟨buyPixel_ok_of_valid s sender x y color sig value hx hy hcell hc hsg hv,
      rfl, ?_, ?_⟩
    · simp [buyPixelOk]
    · simp [buyPixelOk]
  · intro s2 sender color sig value hx hy hcell
    exact buyPixel_error_taken s2 sender x y color sig value hx hy hcell
  · intro s2 op c tok hc
    exact applyOp_cellToToken_mono s2 op c tok hc

/-- C4 witness: on the fresh 10x10 grid, buying (5,5) succeeds and mints
token 1; buying (5,5) again from the resulting state, by a different
account, fails with AlreadyMinted; and a token transfer leaves the
cell-to-token assignment intact. -/
theorem C4_cell_purchased_at_most_once_witness :
    (buyPixel (initState 10 10 100 1 0) 1 5 5 16711935 "Test" 100 =
      .ok (buyPixelOk (initState 10 10 100 1 0) 1 5 5 16711935 "Test" 100) ∧
      (buyPixelOk (initState 10 10 100 1 0) 1 5 5 16711935 "Test" 100).tokenCounter = 1 ∧
      (buyPixelOk (initState 10 10 100 1 0) 1 5 5 16711935 "Test" 100).cellToToken
        (cellId 10 5 5) = some 1 ∧
      (buyPixelOk (initState 10 10 100 1 0) 1 5 5 16711935 "Test" 100).tokenOwner 1 =
        some 1) ∧
    buyPixel (buyPixelOk (initState 10 10 100 1 0) 1 5 5 16711935 "Test" 100)
      2 5 5 16711935 "Again" 100 = .error .pixelAlreadyTaken ∧
    (applyOp (buyPixelOk (initState 10 10 100 1 0) 1 5 5 16711935 "Test" 100)
      (Op.tokenTransfer 1 1 2 1)).cellToToken (cellId 10 5 5) = some 1 :=
  ⟨(C4_cell_purchased_at_most_once (initState 10 10 100 1 0) 5 5).1 1 16711935 "Test" 100
      (by decide) (by decide) (by decide) (by decide) (by decide) (by decide),
   (C4_cell_purchased_at_most_once (initState 10 10 100 1 0) 5 5).2.1
      (buyPixelOk (initState 10 10 100 1 0) 1 5 5 16711935 "Test" 100) 2 16711935 "Again" 100
      (by decide) (by decide) (by decide),
   (C4_cell_purchased_at_most_once (initState 10 10 100 1 0) 5 5).2.2
      (buyPixelOk (initState 10 10 100 1 0) 1 5 5 16711935 "Test" 100)
      (Op.tokenTransfer 1 1 2 1) (cellId 10 5 5) 1 (by decide)⟩

/-- C8 (amended): in the single-purchase protocol the signature and colour
checks PRECEDE the payment check: on an in-bounds unminted cell, whatever
the attached payment, a colour with bits above bit 23 is reported as
InvalidColor, and an empty signature (with valid colour) as EmptySignature —
never PriceMismatch.  (The original claim said the payment check comes
first; that is refuted by C8_wrong_price_reports_other_error.) -/
theorem C8_signature_color_checked_before_price (s : PixelState)
    (sender x y color value : Nat) (sig : String)
    (hx : x < s.width) (hy : y < s.height)
    (hcell : s.cellToToken (cellId s.width x y) = none) :
    (¬ validColor color →
      buyPixel s sender x y color sig value = .error .invalidColorFormat) ∧
    (validColor color → sig = "" →
      buyPixel s sender x y color sig value = .error .signatureIsEmpty) := by
  constructor
  · intro hc
    unfold buyPixel
    rw [if_neg (not_not_intro ⟨hx, hy⟩), if_neg (by simp [hcell]), if_pos hc]
  · intro hc hsg
    unfold buyPixel
    rw [if_neg (not_not_intro ⟨hx, hy⟩), if_neg (by simp [hcell]),
      if_neg (not_not_intro hc), if_pos hsg]

/-- C8 witness: with payment 1 (below price 100), an out-of-range colour is
reported as InvalidColor and an empty signature as EmptySignature. -/
theorem C8_signature_color_checked_before_price_witness :
    buyPixel (initState 10 10 100 1 0) 1 5 5 4294967040 "TEST" 1 =
      .error .invalidColorFormat ∧
    buyPixel (initState 10 10 100 1 0) 1 5 5 16711935 "" 1 =
      .error .signatureIsEmpty :=
  ⟨(C8_signature_color_checked_before_price (initState 10 10 100 1 0) 1 5 5 4294967040 1
      "TEST" (by decide) (by decide) (by decide)).1 (by decide),
   (C8_signature_color_checked_before_price (initState 10 10 100 1 0) 1 5 5 16711935 1
      "" (by decide) (by decide) (by decide)).2 (by decide) rfl⟩

/-- C8 counterexample: a call whose payment (1) differs from the price (100)
and whose signature is empty is rejected with EmptySignature — not
PriceMismatch as the claim states; likewise an invalid colour with wrong
payment is rejected with InvalidColor. -/
theorem C8_wrong_price_reports_other_error :
    1 < (initState 10 10 100 1 0).pricePerPixel ∧
    buyPixel (initState 10 10 100 1 0) 1 5 5 16711935 "" 1 =
      .error .signatureIsEmpty ∧
    buyPixel (initState 10 10 100 1 0) 1 5 5 4294967040 "TEST" 1 =
      .error .invalidColorFormat :=
  ⟨by decide, rfl, rfl⟩

/-- C9: a buyPixel call with payment strictly greater than the configured
price (and all other arguments valid) succeeds, the excess payment minus the
price is credited to the buyer's own stored withdrawal balance, and the
buyer can subsequently withdraw at least that excess. -/
theorem C9_overpayment_credited_to_buyer (s : PixelState)
    (sender x y color value dest : Nat) (sig : String)
    (hx : x < s.width) (hy : y < s.height)
    (hcell : s.cellToToken (cellId s.width x y) = none)
    (hc : validColor color) (hs : sig ≠ "") (hv : s.pricePerPixel < value) :
    buyPixel s sender x y color sig value = .ok (buyPixelOk s sender x y color sig value) ∧
    (buyPixelOk s sender x y color sig value).stored sender =
      s.stored sender + (value - s.pricePerPixel) ∧
    value - s.pricePerPixel ≤
      withdrawalBalance (buyPixelOk s sender x y color sig value) sender ∧
    ∃ s2, withdraw (buyPixelOk s sender x y color sig value) sender dest =
      .ok (withdrawalBalance (buyPixelOk s sender x y color sig value) sender, s2) := by
  have hok := buyPixel_ok_of_valid s sender x y color sig value hx hy hcell hc hs
    (Nat.le_of_lt hv)
  have hstored : (buyPixelOk s sender x y color sig value).stored sender =
      s.stored sender + (value - s.pricePerPixel) := by
    simp [buyPixelOk]
  have hle : value - s.pricePerPixel ≤
      withdrawalBalance (buyPixelOk s sender x y color sig value) sender := by
    unfold withdrawalBalance
    rw [hstored]
    exact Nat.le_add_right_of_le (Nat.le_add_left _ _)
  have hpos : withdrawalBalance (buyPixelOk s sender x y color sig value) sender ≠ 0 := by
    have h1 : 0 < value - s.pricePerPixel := Nat.sub_pos_of_lt hv
    omega
  refine ⟨hok, hstored, hle, ?_⟩
  cases hw : withdraw (buyPixelOk s sender x y color sig value) sender dest with
  | error e =>
    simp only [withdraw] at hw
    rw [if_neg hpos] at hw
    exact Except.noConfusion hw
  | ok r =>
    have hr := withdraw_ok_inv hw
    exact ⟨r.2, by subst hr; rfl⟩

/-- C9 witness: paying 200 against price 100 succeeds, stores exactly 100
for the buyer, and the buyer's withdraw then succeeds paying out the whole
balance. -/
theorem C9_overpayment_credited_to_buyer_witness :
    buyPixel (initState 10 10 100 1 0) 1 3 3 16711935 "Test" 200 =
      .ok (buyPixelOk (initState 10 10 100 1 0) 1 3 3 16711935 "Test" 200) ∧
    (buyPixelOk (initState 10 10 100 1 0) 1 3 3 16711935 "Test" 200).stored 1 =
      (initState 10 10 100 1 0).stored 1 + (200 - (initState 10 10 100 1 0).pricePerPixel) ∧
    200 - (initState 10 10 100 1 0).pricePerPixel ≤
      withdrawalBalance (buyPixelOk (initState 10 10 100 1 0) 1 3 3 16711935 "Test" 200) 1 ∧
    ∃ s2, withdraw (buyPixelOk (initState 10 10 100 1 0) 1 3 3 16711935 "Test" 200) 1 1 =
      .ok (withdrawalBalance (buyPixelOk (initState 10 10 100 1 0) 1 3 3 16711935 "Test" 200) 1,
        s2) :=
  C9_overpayment_credited_to_buyer (initState 10 10 100 1 0) 1 3 3 16711935 200 1 "Test"
    (by decide) (by decide) (by decide) (by decide) (by decide) (by decide)

/-- C6 (amended): after every successful single purchase the administrator's
escrow balance increases by exactly the configured price (not by the whole
payment), the buyer's balance increases by the excess payment minus price,
and every other account's balance is unchanged.  (The original claim —
administrator gains the whole payment and the buyer's balance never changes
— is refuted by C6_overpayment_changes_buyer_balance.) -/
theorem C6_admin_credited_price_buyer_credited_excess (s : PixelState)
    (sender x y color value : Nat) (sig : String)
    (hx : x < s.width) (hy : y < s.height)
    (hcell : s.cellToToken (cellId s.width x y) = none)
    (hc : validColor color) (hs : sig ≠ "") (hv : s.pricePerPixel ≤ value) :
    buyPixel s sender x y color sig value = .ok (buyPixelOk s sender x y color sig value) ∧
    ∀ a, withdrawalBalance (buyPixelOk s sender x y color sig value) a =
      withdrawalBalance s a + (if a = s.admin then s.pricePerPixel else 0) +
      (if a = sender then value - s.pricePerPixel else 0) := by
  refine ⟨buyPixel_ok_of_valid s sender x y color sig value hx hy hcell hc hs hv, ?_⟩
  intro a
  unfold withdrawalBalance
  simp only [buyPixelOk]
  split_ifs <;> omega

/-- C6 witness: an exact-price purchase by account 2 on the fresh grid
credits price 100 to the administrator (account 0) and nothing to anyone
else. -/
theorem C6_admin_credited_price_buyer_credited_excess_witness :
    buyPixel (initState 10 10 100 1 0) 2 3 3 16711935 "Test" 100 =
      .ok (buyPixelOk (initState 10 10 100 1 0) 2 3 3 16711935 "Test" 100) ∧
    ∀ a, withdrawalBalance (buyPixelOk (initState 10 10 100 1 0) 2 3 3 16711935 "Test" 100) a =
      withdrawalBalance (initState 10 10 100 1 0) a +
      (if a = (initState 10 10 100 1 0).admin then (initState 10 10 100 1 0).pricePerPixel
        else 0) +
      (if a = 2 then 100 - (initState 10 10 100 1 0).pricePerPixel else 0) :=
  C6_admin_credited_price_buyer_credited_excess (initState 10 10 100 1 0) 2 3 3 16711935 100
    "Test" (by decide) (by decide) (by decide) (by decide) (by decide) (by decide)

/-- C6 counterexample: when account 1 over-pays 200 against price 100 on the
fresh grid, the administrator's balance rises by 100 — not by the 200
received — and the buyer's own balance rises from 0 to 100, so an account
other than the administrator does change. -/
theorem C6_overpayment_changes_buyer_balance :
    (buyPixel (initState 10 10 100 1 0) 1 3 3 16711935 "Test" 200).isOk = true ∧
    withdrawalBalance (initState 10 10 100 1 0) 0 = 0 ∧
    withdrawalBalance (initState 10 10 100 1 0) 1 = 0 ∧
    withdrawalBalance
      (applyOp (initState 10 10 100 1 0) (Op.buy 1 3 3 16711935 "Test" 200)) 0 = 100 ∧
    withdrawalBalance
      (applyOp (initState 10 10 100 1 0) (Op.buy 1 3 3 16711935 "Test" 200)) 1 = 100 :=
  ⟨rfl, rfl, rfl, by decide, by decide⟩

/-- C7: getPixels(from, to) fails FromTooLow when from < 1, fails ToTooHigh
when to exceeds the minted-token count, and otherwise returns exactly
to − from + 1 pixel records, the i-th being the record of token from + i
(ascending token order over the inclusive range). -/
theorem C7_getPixels_range_retrieval (s : PixelState) (a b : Nat) :
    (a < 1 → getPixels s a b = .error .fromValueTooLow) ∧
    (1 ≤ a → s.tokenCounter < b → getPixels s a b = .error .toValueTooHigh) ∧
    (1 ≤ a → b ≤ s.tokenCounter →
      ∃ l, getPixels s a b = .ok l ∧ l.length = b + 1 - a ∧
        ∀ i, ∀ hi : i < l.length, l.get ⟨i, hi⟩ = s.pixelOf (a + i)) := by
  refine ⟨?_, ?_, ?_⟩
  · intro ha
    unfold getPixels
    rw [if_pos ha]
  · intro ha hb
    unfold getPixels
    rw [if_neg (not_lt.mpr ha), if_pos hb]
  · intro ha hb
    refine ⟨(List.range (b + 1 - a)).map (fun i => s.pixelOf (a + i)), ?_, ?_, ?_⟩
    · unfold getPixels
      rw [if_neg (not_lt.mpr ha), if_neg (not_lt.mpr hb)]
    · simp
    · intro i hi
      simp

/-- C7 witness: with one token minted, getPixels(0,1) fails FromTooLow,
getPixels(1,5) fails ToTooHigh, and getPixels(1,1) returns exactly one
record in token order. -/
theorem C7_getPixels_range_retrieval_witness :
    getPixels (buyPixelOk (initState 10 10 100 1 0) 1 3 3 16711935 "Test" 100) 0 1 =
      .error .fromValueTooLow ∧
    getPixels (buyPixelOk (initState 10 10 100 1 0) 1 3 3 16711935 "Test" 100) 1 5 =
      .error .toValueTooHigh ∧
    ∃ l, getPixels (buyPixelOk (initState 10 10 100 1 0) 1 3 3 16711935 "Test" 100) 1 1 =
      .ok l ∧ l.length = 1 + 1 - 1 ∧
      ∀ i, ∀ hi : i < l.length, l.get ⟨i, hi⟩ =
        (buyPixelOk (initState 10 10 100 1 0) 1 3 3 16711935 "Test" 100).pixelOf (1 + i) :=
  ⟨(C7_getPixels_range_retrieval
      (buyPixelOk (initState 10 10 100 1 0) 1 3 3 16711935 "Test" 100) 0 1).1 (by decide),
   (C7_getPixels_range_retrieval
      (buyPixelOk (initState 10 10 100 1 0) 1 3 3 16711935 "Test" 100) 1 5).2.1
      (by decide) (by decide),
   (C7_getPixels_range_retrieval
      (buyPixelOk (initState 10 10 100 1 0) 1 3 3 16711935 "Test" 100) 1 1).2.2
      (by decide) (by decide)⟩

/-- C3: once current time reaches the completion deadline fixed at
construction, every updatePixel call fails with ArtComplete regardless of
the caller — even the token's owner; before the deadline an owner's update
with valid colour and non-empty signature succeeds; and no operation ever
changes the deadline, so completion is irreversible. -/
theorem C3_art_complete_after_deadline (s : PixelState) :
    (∀ sender now tok color sig, s.deadline ≤ now →
      updatePixel s sender now tok color sig = .error .artIsComplete) ∧
    (∀ sender now tok color sig, now < s.deadline → s.tokenOwner tok = some sender →
      validColor color → sig ≠ "" →
      ∃ s1, updatePixel s sender now tok color sig = .ok s1 ∧
        (s1.pixelOf tok).color = color ∧ (s1.pixelOf tok).signature = sig) ∧
    (∀ op, (applyOp s op).deadline = s.deadline) := by
  refine ⟨?_, ?_, fun op => applyOp_deadline s op⟩
  · intro sender now tok color sig hnow
    unfold updatePixel
    rw [if_pos hnow]
  · intro sender now tok color sig hnow hown hc hs
    refine ⟨{ s with pixelOf := fun t =>
      if t = tok then setPixelData (s.pixelOf tok) color sig else s.pixelOf t }, ?_, ?_, ?_⟩
    · simp only [updatePixel, hown]
      rw [if_neg (not_le.mpr hnow), if_neg (not_not_intro rfl), if_neg (not_not_intro hc),
        if_neg hs]
    · simp [setPixelData]
    · simp [setPixelData]

/-- C3 witness: with token 1 owned by account 1 and deadline 1, an update at
time 5 fails with ArtComplete, the same update at time 0 succeeds and is
readable back, and an arbitrary operation leaves the deadline at 1. -/
theorem C3_art_complete_after_deadline_witness :
    updatePixel (buyPixelOk (initState 10 10 100 1 0) 1 3 3 16711935 "Test" 100)
      1 5 1 61695 "Kept" = .error .artIsComplete ∧
    (∃ s1, updatePixel (buyPixelOk (initState 10 10 100 1 0) 1 3 3 16711935 "Test" 100)
      1 0 1 61695 "Kept" = .ok s1 ∧
      (s1.pixelOf 1).color = 61695 ∧ (s1.pixelOf 1).signature = "Kept") ∧
    (applyOp (buyPixelOk (initState 10 10 100 1 0) 1 3 3 16711935 "Test" 100)
      (Op.buy 2 4 4 255 "More" 100)).deadline =
      (buyPixelOk (initState 10 10 100 1 0) 1 3 3 16711935 "Test" 100).deadline :=
  ⟨(C3_art_complete_after_deadline
      (buyPixelOk (initState 10 10 100 1 0) 1 3 3 16711935 "Test" 100)).1
      1 5 1 61695 "Kept" (by decide),
   (C3_art_complete_after_deadline
      (buyPixelOk (initState 10 10 100 1 0) 1 3 3 16711935 "Test" 100)).2.1
      1 0 1 61695 "Kept" (by decide) (by decide) (by decide) (by decide),
   (C3_art_complete_after_deadline
      (buyPixelOk (initState 10 10 100 1 0) 1 3 3 16711935 "Test" 100)).2.2
      (Op.buy 2 4 4 255 "More" 100)⟩

/-- C5: withdraw pays each balance exactly once: with a zero balance it
fails NothingToWithdraw and changes nothing; with a positive balance b it
releases exactly b to the destination, zeroes the caller's balance, and an
immediately repeated withdraw fails NothingToWithdraw. -/
theorem C5_withdraw_exactly_once (s : PixelState) (caller dest : Nat) :
    (withdrawalBalance s caller = 0 →
      withdraw s caller dest = .error .noEthToWithdraw ∧
      applyOp s (Op.withdrawal caller dest) = s) ∧
    (0 < withdrawalBalance s caller →
      ∃ s1, withdraw s caller dest = .ok (withdrawalBalance s caller, s1) ∧
        withdrawalBalance s1 caller = 0 ∧
        withdraw s1 caller dest = .error .noEthToWithdraw) := by
  constructor
  · intro h0
    have he : withdraw s caller dest = .error .noEthToWithdraw := by
      simp only [withdraw]
      rw [if_pos h0]
    refine ⟨he, ?_⟩
    simp only [applyOp, runOp, he]
  · intro hpos
    have hz : withdrawalBalance (withdrawOkState s caller) caller = 0 := by
      by_cases h : caller = s.admin <;> simp [withdrawalBalance, withdrawOkState, h]
    refine ⟨withdrawOkState s caller, ?_, hz, ?_⟩
    · simp only [withdraw]
      rw [if_neg (Nat.pos_iff_ne_zero.mp hpos)]
    · simp only [withdraw]
      rw [if_pos hz]

/-- C5 witness: on the fresh grid account 5 has balance 0 and its withdraw
fails with no state change; after one exact-price sale the administrator's
balance is 100 and withdraw pays exactly 100, zeroes it, and a repeat fails. -/
theorem C5_withdraw_exactly_once_witness :
    (withdraw (initState 10 10 100 1 0) 5 5 = .error .noEthToWithdraw ∧
      applyOp (initState 10 10 100 1 0) (Op.withdrawal 5 5) = initState 10 10 100 1 0) ∧
    ∃ s1, withdraw (buyPixelOk (initState 10 10 100 1 0) 1 3 3 16711935 "Test" 100) 0 9 =
      .ok (withdrawalBalance (buyPixelOk (initState 10 10 100 1 0) 1 3 3 16711935 "Test" 100)
        0, s1) ∧
      withdrawalBalance s1 0 = 0 ∧
      withdraw s1 0 9 = .error .noEthToWithdraw :=
  ⟨(C5_withdraw_exactly_once (initState 10 10 100 1 0) 5 5).1 (by decide),
   (C5_withdraw_exactly_once
      (buyPixelOk (initState 10 10 100 1 0) 1 3 3 16711935 "Test" 100) 0 9).2 (by decide)⟩

/-- C10: primary-sale proceeds follow the administrator role: with an
accrued proceeds pot and no per-account stored excess for the old
administrator, after transferOwnership to a new administrator the old
administrator's withdraw fails NothingToWithdraw while the new
administrator's withdraw succeeds and pays out the pot. -/
theorem C10_proceeds_follow_admin_role (s : PixelState) (newAdmin dest : Nat)
    (hg : 0 < s.gained) (hstored : s.stored s.admin = 0) (hne : newAdmin ≠ s.admin) :
    ∃ s1, transferOwnership s s.admin newAdmin = .ok s1 ∧
      withdraw s1 s.admin dest = .error .noEthToWithdraw ∧
      ∃ s2, withdraw s1 newAdmin dest = .ok (s.stored newAdmin + s.gained, s2) := by
  refine ⟨{ s with admin := newAdmin }, ?_, ?_, ?_⟩
  · unfold transferOwnership
    rw [if_neg (not_not_intro rfl)]
  · have hz : withdrawalBalance { s with admin := newAdmin } s.admin = 0 := by
      simp [withdrawalBalance, hstored, Ne.symm hne]
    simp only [withdraw]
    rw [if_pos hz]
  · have hw : withdrawalBalance { s with admin := newAdmin } newAdmin =
        s.stored newAdmin + s.gained := by
      simp [withdrawalBalance]
    have hnz : withdrawalBalance { s with admin := newAdmin } newAdmin ≠ 0 := by
      rw [hw]; omega
    refine ⟨withdrawOkState { s with admin := newAdmin } newAdmin, ?_⟩
    simp only [withdraw]
    rw [if_neg hnz, hw]

/-- C10 witness: after one exact-price sale (pot 100, administrator 0),
handing the role to account 7 makes account 0's withdraw fail while account
7 withdraws the full 100. -/
theorem C10_proceeds_follow_admin_role_witness :
    ∃ s1, transferOwnership (buyPixelOk (initState 10 10 100 1 0) 1 3 3 16711935 "Test" 100)
      (buyPixelOk (initState 10 10 100 1 0) 1 3 3 16711935 "Test" 100).admin 7 = .ok s1 ∧
      withdraw s1 (buyPixelOk (initState 10 10 100 1 0) 1 3 3 16711935 "Test" 100).admin 7 =
        .error .noEthToWithdraw ∧
      ∃ s2, withdraw s1 7 7 =
        .ok ((buyPixelOk (initState 10 10 100 1 0) 1 3 3 16711935 "Test" 100).stored 7 +
          (buyPixelOk (initState 10 10 100 1 0) 1 3 3 16711935 "Test" 100).gained, s2) :=
  C10_proceeds_follow_admin_role (buyPixelOk (initState 10 10 100 1 0) 1 3 3 16711935 "Test" 100)
    7 7 (by decide) (by decide) (by decide)

/-- C2: buyPixelsBatch is all-or-nothing: for every batch of individually
well-formed items with matching non-empty arrays and exact aggregate
payment, if some item addresses a cell already minted before the call or
repeats the cell of an earlier item in the same batch, the whole call fails
with AlreadyMinted and the post-call state equals the pre-call state (zero
tokens minted from that batch). -/
theorem C2_batch_all_or_nothing (s : PixelState) (sender value : Nat)
    (pixels : List Nat) (sigs : List String)
    (hne : pixels ≠ []) (hlen : pixels.length = sigs.length)
    (hval : value = s.pricePerPixel * pixels.length)
    (hwf : ∀ it ∈ pixels.zip sigs, wfItem s.width s.height it)
    (hdoom : doomedBatch s (pixels.zip sigs)) :
    buyPixelsBatch s sender pixels sigs value = .error .pixelAlreadyTaken ∧
    applyOp s (Op.buyBatch sender pixels sigs value) = s := by
  have hsne : sigs ≠ [] := by
    intro h
    exact hne (List.length_eq_zero.mp (by rw [hlen, h]; rfl))
  have hb : buyPixelsBatch s sender pixels sigs value = .error .pixelAlreadyTaken := by
    unfold buyPixelsBatch
    rw [if_neg hne, if_neg hsne, if_neg (not_not_intro hlen), if_neg (not_not_intro hval)]
    exact buyPixelsLoop_doomed sender (pixels.zip sigs) s hwf hdoom
  refine ⟨hb, ?_⟩
  simp only [applyOp, runOp, hb]

/-- C2 witness: the duplicate batch of the test suite — the same encoded
cell (3,3) twice with two signatures and exact payment 200 — fails with
AlreadyMinted and leaves the fresh state untouched. -/
theorem C2_batch_all_or_nothing_witness :
    buyPixelsBatch (initState 10 10 100 1 0) 1
      [encodePixel 3 3 16711935, encodePixel 3 3 16711935] ["Test", "Test1"] 200 =
      .error .pixelAlreadyTaken ∧
    applyOp (initState 10 10 100 1 0)
      (Op.buyBatch 1 [encodePixel 3 3 16711935, encodePixel 3 3 16711935]
        ["Test", "Test1"] 200) = initState 10 10 100 1 0 :=
  C2_batch_all_or_nothing (initState 10 10 100 1 0) 1 200
    [encodePixel 3 3 16711935, encodePixel 3 3 16711935] ["Test", "Test1"]
    (by decide) (by decide) (by decide) (by decide)
    ⟨1, encodePixel 3 3 16711935, "Test1", by decide,
      Or.inr ⟨0, encodePixel 3 3 16711935, "Test", by decide, by decide, by decide⟩⟩
